import Mathlib

/-!
# Verification of the alert-dashboard ingestion and analytics engine

This file gives a shallow embedding, in Lean 4, of the core functions of the
alert-dashboard repository (Go backend), and proves or refutes the frozen
claims about it.

Strings of the Go program are modelled as `List Char` (`Str` below) so that
every operation (substring test, lowercase, lexicographic comparison,
`REPLACE`) is a structurally recursive, kernel-computable function.

Embedded source locations:
* `calculateChange`, `fetchStats`, `GetDashboardIssues` — `internal/api` dashboard
  handler (src/unnamed/part_008);
* `calcCompChange`, `calcRate`, `getCategory`, `GetComponentStats` —
  `internal/api/components.go`;
* `isAlert`, `insertOrUpdateIssue`, `IncrementalUpdate` —
  `internal/services/data_updater.go`;
* `SearchAllIssues` — `internal/services/jira_client.go`;
* `Resolve`, `isNumeric` — `internal/services/name_service.go`;
* `Issue`, `MutedIssue` — `internal/models` (src/unnamed/part_005).
-/

/-- Go strings, modelled as lists of characters (kernel-computable). -/
abbrev Str := List Char

/-- Convert a Lean string literal to the `Str` model. -/
def str (s : String) : Str := s.data

/-- ASCII lower-casing of one character (the keywords the code matches are
all ASCII, where Go's `strings.ToLower` does exactly this). -/
def lowerChar (c : Char) : Char :=
  if 65 ≤ c.toNat ∧ c.toNat ≤ 90 then Char.ofNat (c.toNat + 32) else c

/-- `strings.ToLower` on the modelled string. -/
def strLower (s : Str) : Str := s.map lowerChar

/-- Go `strings.Contains` / SQL `LIKE '%pat%'`: `pat` occurs as a contiguous
substring of `s`. -/
def containsSub (s pat : Str) : Bool :=
  pat.isPrefixOf s ||
    match s with
    | [] => false
    | _ :: t => containsSub t pat

/-- SQL `LIKE 'pat%'`: `s` starts with `pat`. -/
def strStartsWith (s pat : Str) : Bool := pat.isPrefixOf s

/-- Byte-wise (codepoint-wise) lexicographic `≤` on strings, as SQLite
compares TEXT values. -/
def strLe : Str → Str → Bool
  | [], _ => true
  | _ :: _, [] => false
  | a :: as, b :: bs => if a < b then true else if b < a then false else strLe as bs

/-- SQL `x BETWEEN lo AND hi` on TEXT values. -/
def strBetween (lo hi x : Str) : Bool := strLe lo x && strLe x hi

/-- Fuel-driven worker for `replaceAll` (fuel = length of the subject,
which bounds the number of recursion steps). -/
def replaceAllGo (pat rep : Str) : Nat → Str → Str
  | 0, s => s
  | fuel + 1, s =>
    if !pat.isEmpty && pat.isPrefixOf s then
      rep ++ replaceAllGo pat rep fuel (s.drop pat.length)
    else
      match s with
      | [] => []
      | c :: t => c :: replaceAllGo pat rep fuel t

/-- SQL `REPLACE(s, pat, rep)`: replace every occurrence of `pat` in `s`. -/
def replaceAll (pat rep s : Str) : Str := replaceAllGo pat rep s.length s

/-- Go `strings.Split(s, ",")`. -/
def splitOnComma : Str → List Str
  | [] => [[]]
  | c :: t =>
    let r := splitOnComma t
    if c = ',' then [] :: r
    else
      match r with
      | [] => [[c]]
      | h :: t2 => (c :: h) :: t2

/-- Whitespace characters trimmed by Go's `strings.TrimSpace` (ASCII part). -/
def isSpaceChar (c : Char) : Bool := c = ' ' || c = '\t' || c = '\n' || c = '\r'

/-- Go `strings.TrimSpace` on the modelled string. -/
def trimStr (s : Str) : Str :=
  ((s.dropWhile isSpaceChar).reverse.dropWhile isSpaceChar).reverse

/-! ## Change/trend and rate helpers

`calculateChange` is from the dashboard handler (src/unnamed/part_008,
lines 88–103); `calcCompChange` is from `internal/api/components.go`
(lines 248–263).  Go's `float64` arithmetic on these small integer ratios is
modelled exactly by `ℚ`. -/

/-- `calculateChange` from the dashboard handler (part_008:88). -/
def calculateChange (current previous : ℤ) : ℚ × Str :=
  if previous = 0 then
    if current = 0 then (0, str "neutral") else (100, str "up")
  else
    let change : ℚ := ((current : ℚ) - (previous : ℚ)) / (previous : ℚ) * 100
    (change, if change > 0 then str "up" else if change < 0 then str "down" else str "neutral")

/-- `calcCompChange` from `components.go:248`. -/
def calcCompChange (curr prev : ℤ) : ℚ × Str :=
  if prev = 0 then
    if curr = 0 then (0, str "neutral") else (100, str "up")
  else
    let change : ℚ := ((curr : ℚ) - (prev : ℚ)) / (prev : ℚ) * 100
    (change, if change > 0 then str "up" else if change < 0 then str "down" else str "neutral")

/-- The change/trend rule as worded by the spec (for the refinement claim C1):
if previous = 0, change = 0 when current = 0, else change = 100 and trend up;
otherwise change = (current - previous) / previous * 100, trend up if change
> 0, down if change < 0, else neutral. -/
def specChangeTrend (current previous : ℤ) : ℚ × Str :=
  if previous = 0 then
    if current = 0 then (0, str "neutral") else (100, str "up")
  else
    let change : ℚ := ((current : ℚ) - (previous : ℚ)) / (previous : ℚ) * 100
    let trend : Str :=
      if change > 0 then str "up" else if change < 0 then str "down" else str "neutral"
    (change, trend)

/-- `calcRate` closure inside `GetDashboardData` (part_008:198–203). -/
def calcRate (num den : ℤ) : ℚ :=
  if den = 0 then 0 else (num : ℚ) / (den : ℚ) * 100

/-- `calcRate` closure inside `GetComponentStats` (`components.go:386–391`). -/
def calcRateComp (numerator denominator : ℤ) : ℚ :=
  if denominator = 0 then 0 else (numerator : ℚ) / (denominator : ℚ) * 100

/-! ## Alert classification (`data_updater.go:331–341`) -/

/-- `isAlert` from `data_updater.go`: note that `firing` and `prometheus`
are only looked for in the description, while `alert` is looked for in both
the description and the title. -/
def isAlert (description title : Str) : Bool :=
  let d := strLower description
  let t := strLower title
  containsSub d (str "alert") ||
  containsSub t (str "alert") ||
  containsSub d (str "firing") ||
  containsSub d (str "prometheus")

/-- The alert test as worded by the spec (for comparison in claim C5): the
ticket is an alert if either the description or the title contains any of
"alert", "firing", "prometheus", case-insensitively. -/
def specIsAlert (description title : Str) : Bool :=
  let d := strLower description
  let t := strLower title
  (containsSub d (str "alert") || containsSub t (str "alert")) ||
  (containsSub d (str "firing") || containsSub t (str "firing")) ||
  (containsSub d (str "prometheus") || containsSub t (str "prometheus"))

/-! ## Data model (`internal/models`, src/unnamed/part_005) -/

/-- A row of the `issues` table (`models.Issue`).  String-valued columns are
`Str`; `components` and `labels` hold the raw JSON-encoded text, exactly as
the Go code stores and `LIKE`-matches them. -/
structure Issue where
  id : Str
  title : Str
  description : Str
  created : Str
  priority : Str
  labels : Str
  issueType : Str
  components : Str
  project : Str
  isAlert : Bool
  alertSignature : Str
  clusterId : Str
  tenantId : Str
  bizType : Str
  status : Str
  isSubtask : Bool
  stabilityGovernance : Str
  visibility : Str
  componentName : Str
  sourceComponent : Str
  alertGroup : Str
deriving DecidableEq

/-- A row of the `muted_issues` table (`models.MutedIssue`); `mutedAt` is the
auto-create timestamp, in seconds. -/
structure MutedIssue where
  issueId : Str
  mutedAt : Nat
  reason : Str
deriving DecidableEq

/-- The processed record built by extraction, ready for insertion
(`services.IssueData`, `data_updater.go:21–45`). -/
structure IssueData where
  id : Str
  title : Str
  description : Str
  created : Str
  priority : Str
  labels : Str
  issueType : Str
  components : Str
  project : Str
  isAlert : Bool
  alertSignature : Str
  clusterId : Str
  tenantId : Str
  bizType : Str
  status : Str
  isSubtask : Bool
  stabilityGovernance : Str
  visibility : Str
  componentName : Str
  sourceComponent : Str
  alertGroup : Str
deriving DecidableEq

/-! ## Ingestion upsert (`data_updater.go:470–511`)

`insertOrUpdateIssue` runs `INSERT OR REPLACE INTO issues (...)` keyed by the
primary key `id`: SQLite deletes any existing row with the same key and
inserts the new one.  The `issues` table is the list of rows. -/

/-- `INSERT OR REPLACE` keyed upsert of one processed record. -/
def insertOrUpdateIssue (store : List IssueData) (d : IssueData) : List IssueData :=
  d :: store.filter (fun r => !(r.id = d.id : Bool))

/-! ## Incremental fetch window (`data_updater.go:102–131`)

`IncrementalUpdate` runs `SELECT MAX(created) FROM issues`; if a row exists it
parses the stamp (dropping the `" UTC"` suffix) and adds one second, otherwise
it uses `now - 30 days`.  Creation stamps are modelled as epoch seconds, so
SQL `MAX` is `List.max?` and "plus one second" is `+ 1`. -/

/-- The fetch window `[start, end]` computed by `IncrementalUpdate` from the
stored creation timestamps and the current time (epoch seconds). -/
def incrementalWindow (created : List Nat) (now : Nat) : Nat × Nat :=
  match created.max? with
  | some m => (m + 1, now)
  | none => (now - 30 * 86400, now)

/-! ## Paginated fetch loop (`jira_client.go:193–299`)

`SearchAllIssues` walks a continuation-token result set.  The remote service
is a function from the token just sent to the page it answers with; the
per-issue field conversion (lines 228–280) maps each raw issue to a record
and never affects control flow, so the element type is a parameter.  The Go
loop increments `pageNum`, breaks when `pageNum > maxPages` (before
fetching), fetches, appends, then breaks on an empty or repeated
continuation token.  `searchPages fuel` mirrors the loop with
`fuel = maxPages - pageNum + 1`; it returns the collected issues and the
number of pages actually fetched. -/

/-- One page answered by the tracker: converted issues plus the continuation
token for the next request. -/
structure Page (α : Type) where
  issues : List α
  nextPageToken : Str

/-- The pagination loop body of `SearchAllIssues`. -/
def searchPages {α : Type} (fetch : Str → Page α) : Nat → Str → List α → List α × Nat
  | 0, _, acc => (acc, 0)
  | fuel + 1, token, acc =>
    let p := fetch token
    let acc2 := acc ++ p.issues
    if p.nextPageToken.isEmpty then (acc2, 1)
    else if p.nextPageToken = token then (acc2, 1)
    else
      let r := searchPages fetch fuel p.nextPageToken acc2
      (r.1, r.2 + 1)

/-- The hard page ceiling (`maxPages := 500`, `jira_client.go:203`). -/
def maxPages : Nat := 500

/-- `SearchAllIssues`: start from the empty token with nothing collected. -/
def SearchAllIssues {α : Type} (fetch : Str → Page α) : List α × Nat :=
  searchPages fetch maxPages (str "") []

/-! ## Name resolution cache (`name_service.go:57–107`)

`Resolve` is modelled with the cache passed explicitly and the external
lookup service as a function `Str → Option NameInfo` (`none` collapses every
failure mode: transport error, non-200, malformed body, `success=false` —
all of which return the id-echoing fallback and do not populate the cache).
The output records the result, whether an error was returned, the new cache,
and how many external calls were made. -/

/-- `services.NameInfo`. -/
structure NameInfo where
  ty : Str
  id : Str
  name : Str
  tenantId : Str
  tenantName : Str
deriving DecidableEq

/-- The zero value of `NameInfo` (Go `NameInfo{}`). -/
def emptyNameInfo : NameInfo := ⟨[], [], [], [], []⟩

/-- `isNumeric` from `name_service.go:48–55`: nonempty and all digits. -/
def isNumeric (s : Str) : Bool :=
  s.all (fun c => decide ('0' ≤ c) && decide (c ≤ '9')) && decide (s.length > 0)

/-- Result of one `Resolve` call. -/
structure ResolveOut where
  info : NameInfo
  failed : Bool
  cache : List (Str × NameInfo)
  calls : Nat
deriving DecidableEq

/-- `Resolve` from `name_service.go:57–107`. -/
def Resolve (service : Str → Option NameInfo) (cache : List (Str × NameInfo))
    (id : Str) : ResolveOut :=
  if id.isEmpty then ⟨emptyNameInfo, true, cache, 0⟩
  else if !isNumeric id then ⟨{ emptyNameInfo with id := id, name := id }, false, cache, 0⟩
  else
    match cache.lookup id with
    | some info => ⟨info, false, cache, 0⟩
    | none =>
      match service id with
      | some data => ⟨data, false, (id, data) :: cache, 1⟩
      | none => ⟨{ emptyNameInfo with id := id, name := id }, true, cache, 1⟩

/-! ## Category classifier (`components.go:115–129`)

`loadCategories` reads the hot-reloadable `component_categories.yaml` into a
component → category map; the map is configuration, so it is a parameter
here (an association list).  The debounce and locking around the reload have
no bearing on the classification result. -/

/-- `getCategory` from `components.go:115`: `"Serverless"` is hard-wired to
its own category, configured components map through the table, anything else
is the sentinel `"Other"`. -/
def getCategory (catMap : List (Str × Str)) (name : Str) : Str :=
  if name = str "Serverless" then str "Serverless"
  else
    match catMap.lookup name with
    | some cat => cat
    | none => str "Other"

/-- The "legacy/ungoverned" (`old-rules`) bucket predicate, as it appears in
every query that uses it (`components.go:225,328,335`, part_008:450,459):
empty stability-governance and a business type not containing `nextgen`. -/
def legacyBucket (i : Issue) : Bool :=
  i.stabilityGovernance.isEmpty && !containsSub i.bizType (str "nextgen")

/-- The normalized creation stamp used by every windowed query:
`REPLACE(created, ' UTC', '')`. -/
def createdKey (i : Issue) : Str := replaceAll (str " UTC") [] i.created

/-! ## Global dashboard queries (src/unnamed/part_008)

`GetDashboardData` builds its `WHERE` clauses from the request parameters;
a Go empty string means the parameter is absent.  None of these aggregation
queries joins against `muted_issues`. -/

/-- The environment condition of the global dashboard (part_008:131–137):
`env=prod` keeps rows whose `alert_signature LIKE '[PROD]%'`, `env=non_prod`
keeps the complement, anything else keeps everything. -/
def dashEnvPass (env : Str) (i : Issue) : Bool :=
  if env = str "prod" then strStartsWith i.alertSignature (str "[PROD]")
  else if env = str "non_prod" then !strStartsWith i.alertSignature (str "[PROD]")
  else true

/-- The `WHERE` clause of the `fetchStats` helper inside `GetDashboardData`
(part_008:154–171), including the extra filter parameters of lines 139–152. -/
def fetchStatsWhere (env comp tenant sig cluster s e : Str) (i : Issue) : Bool :=
  i.isAlert &&
  dashEnvPass env i &&
  (comp.isEmpty || containsSub i.components comp) &&
  (tenant.isEmpty || (i.tenantId = tenant : Bool)) &&
  (sig.isEmpty || (i.alertSignature = sig : Bool)) &&
  (cluster.isEmpty || (i.clusterId = cluster : Bool)) &&
  strBetween s e (createdKey i)

/-- `fetchStats` (part_008:155–171): `(total, prod, nonProd, critical)`
counts over the issues table for one window. -/
def fetchStats (issues : List Issue) (env comp tenant sig cluster s e : Str) :
    Nat × Nat × Nat × Nat :=
  let rows := issues.filter (fetchStatsWhere env comp tenant sig cluster s e)
  (rows.length,
   rows.countP (fun i => strStartsWith i.alertSignature (str "[PROD]")),
   rows.countP (fun i => !strStartsWith i.alertSignature (str "[PROD]")),
   rows.countP (fun i => (i.priority = str "Critical" : Bool)))

/-! ## Per-component stats queries (`components.go:274–475`) -/

/-- The environment condition of `GetComponentStats`
(`components.go:355–365`): it tests marker substrings of the `title`
column, not the alert signature. -/
def compEnvPass (env : Str) (i : Issue) : Bool :=
  if env = str "prod" then
    containsSub i.title (str "[PROD]") || containsSub i.title (str "PROD")
  else if env = str "non_prod" then
    containsSub i.title (str "[STAGING]") || containsSub i.title (str "[STG]") ||
      containsSub i.title (str "STAGING")
  else true

/-- The `WHERE` clause shared by the windowed queries of `GetComponentStats`
(`components.go:302–374`).  `clusterOk` abstracts the test-cluster exclusion
built by `buildClusterFilterCondition`, whose definition is not among the
provided sources; it is one more conjunct applied uniformly.  For
`old-rules` the component filter is `LIKE '%'` and the stability condition
is the legacy bucket itself; for `Serverless` the component filter is
`LIKE '%'` and the category condition is forced to the devtier test; for a
normal component whose category is neither `Resilience` nor `Serverless`
the legacy bucket is excluded. -/
def compStatsWhere (catMap : List (Str × Str)) (clusterOk : Issue → Bool)
    (name env category s e : Str) (i : Issue) : Bool :=
  let categoryOk : Bool :=
    if name = str "Serverless" then
      containsSub i.bizType (str "devtier") || containsSub i.bizType (str "TiDB Serverless")
    else if category = str "premium" then containsSub i.bizType (str "nextgen")
    else if category = str "essential" then
      containsSub i.bizType (str "devtier") || containsSub i.bizType (str "TiDB Serverless")
    else if category = str "dedicated" then
      !containsSub i.bizType (str "nextgen") && !containsSub i.bizType (str "devtier") &&
        !containsSub i.bizType (str "TiDB Serverless")
    else true
  let stabilityOk : Bool :=
    if name = str "old-rules" then legacyBucket i
    else if !(getCategory catMap name = str "Resilience" : Bool) &&
            !(getCategory catMap name = str "Serverless" : Bool) then
      !legacyBucket i
    else true
  let compLike : Bool :=
    if name = str "Serverless" || name = str "old-rules" then true
    else containsSub i.components (str "\"" ++ name ++ str "\"")
  i.isAlert && compLike && compEnvPass env i && categoryOk && stabilityOk &&
    clusterOk i && strBetween s e (createdKey i)

/-- The `COUNT(*)` total of `GetComponentStats` for one window
(`components.go:370–381`). -/
def compStatsTotal (issues : List Issue) (catMap : List (Str × Str))
    (clusterOk : Issue → Bool) (name env category s e : Str) : Nat :=
  (issues.filter (compStatsWhere catMap clusterOk name env category s e)).length

/-! ## Dashboard issue listing (`GetDashboardIssues`, part_008:402–521)

The only analytics read path with the `muted_issues` anti-join
(`LEFT JOIN muted_issues ... WHERE muted_issues.issue_id IS NULL`). -/

/-- The `WHERE` clause of `GetDashboardIssues` (part_008:437–507), without
the mute anti-join.  Mirrors the Go control flow: a `Serverless` component
filter overwrites the category parameter with `essential`; `old-rules` turns
into the legacy-bucket predicate; a normal component adds the legacy
exclusion only when its category is neither `Resilience` nor `Serverless`. -/
def dashIssuesWhere (catMap : List (Str × Str))
    (env comp tenant sig cluster category metricType priorityF s e : Str)
    (i : Issue) : Bool :=
  let category := if comp = str "Serverless" then str "essential" else category
  let compOk : Bool :=
    if comp.isEmpty then true
    else if comp = str "Serverless" then true
    else if comp = str "old-rules" then legacyBucket i
    else
      (if !(getCategory catMap comp = str "Resilience" : Bool) &&
          !(getCategory catMap comp = str "Serverless" : Bool) then
        !legacyBucket i
      else true) &&
      containsSub i.components comp
  let categoryOk : Bool :=
    if category = str "premium" then containsSub i.bizType (str "nextgen")
    else if category = str "essential" then containsSub i.bizType (str "devtier")
    else if category = str "dedicated" then
      !containsSub i.bizType (str "nextgen") && !containsSub i.bizType (str "devtier")
    else true
  let metricOk : Bool :=
    if metricType = str "fake" then (i.status = str "FAKE ALARM" : Bool)
    else if metricType = str "handled" then !(i.status = str "Created" : Bool)
    else if metricType = str "critical" then (i.priority = str "Critical" : Bool)
    else if metricType = str "prod" then strStartsWith i.alertSignature (str "[PROD]")
    else if metricType = str "non_prod" then !strStartsWith i.alertSignature (str "[PROD]")
    else true
  let priorityOk : Bool :=
    priorityF.isEmpty || ((splitOnComma priorityF).map trimStr).contains i.priority
  i.isAlert && dashEnvPass env i && compOk &&
    (tenant.isEmpty || (i.tenantId = tenant : Bool)) &&
    (sig.isEmpty || (i.alertSignature = sig : Bool)) &&
    (cluster.isEmpty || (i.clusterId = cluster : Bool)) &&
    categoryOk && metricOk && priorityOk && strBetween s e (createdKey i)

/-- Insert one issue into a list kept in descending `created` order
(`ORDER BY issues.created DESC`). -/
def insertDesc (i : Issue) : List Issue → List Issue
  | [] => [i]
  | j :: t => if strLe j.created i.created then i :: j :: t else j :: insertDesc i t

/-- Stable sort by descending `created`. -/
def sortByCreatedDesc : List Issue → List Issue
  | [] => []
  | i :: t => insertDesc i (sortByCreatedDesc t)

/-- `GetDashboardIssues` (part_008:509–518): anti-join against
`muted_issues`, the `WHERE` clause above, `ORDER BY created DESC`, then
offset pagination (`page`/`pageSize` normalized as in part_008:422–431). -/
def GetDashboardIssuesQ (issues : List Issue) (muted : List MutedIssue)
    (catMap : List (Str × Str))
    (env comp tenant sig cluster category metricType priorityF s e : Str)
    (page pageSize : Int) : List Issue :=
  let page := if page < 1 then 1 else page
  let pageSize := if pageSize < 1 then 50 else pageSize
  let offset := ((page - 1) * pageSize).toNat
  let rows := issues.filter (fun i =>
    !(muted.any (fun m => (m.issueId = i.id : Bool))) &&
    dashIssuesWhere catMap env comp tenant sig cluster category metricType priorityF s e i)
  ((sortByCreatedDesc rows).drop offset).take pageSize.toNat

/-! ## Concrete example rows used by witnesses and counterexamples -/

/-- An alert issue row that has a `MutedIssue` entry in the examples below. -/
def mutedExampleIssue : Issue :=
  { id := str "O11Y-1", title := str "alert db down", description := [],
    created := str "2025-01-10 00:00:00 UTC", priority := str "Critical",
    labels := str "[]", issueType := [], components := str "[]", project := str "O11Y",
    isAlert := true, alertSignature := str "alert db down", clusterId := [],
    tenantId := [], bizType := [], status := [], isSubtask := false,
    stabilityGovernance := [], visibility := [], componentName := [],
    sourceComponent := [], alertGroup := [] }

/-- The muted-issues table containing exactly `mutedExampleIssue`'s key. -/
def mutedExampleTable : List MutedIssue :=
  [{ issueId := str "O11Y-1", mutedAt := 0, reason := str "User muted via dashboard" }]

/-- An unmuted alert issue used by the listing witness. -/
def listedExampleIssue : Issue :=
  { mutedExampleIssue with
    id := str "O11Y-2"
    title := str "alert api down"
    alertSignature := str "alert api down" }

/-! ## C1 — change/trend rule -/

/-- C1: for every pair of counts, the dashboard `calculateChange` and the
per-component `calcCompChange` agree, and both implement the spec's
change/trend rule: previous = 0 gives (0, neutral) when current = 0 and
(100, up) otherwise; otherwise change = (current - previous)/previous * 100
with trend up/down/neutral by the sign of the change. -/
theorem change_trend_rule_uniform (current previous : ℤ) :
    calculateChange current previous = calcCompChange current previous ∧
    calculateChange current previous = specChangeTrend current previous :=
  ⟨rfl, rfl⟩

/-! ## C10 — rate computations never divide by zero -/

/-- C10: when the total alert count of a period is 0, both rate helpers are
defined and return 0 (the division is guarded in the dashboard's and the
component handler's `calcRate`). -/
theorem calc_rate_zero_total (n : ℤ) : calcRate n 0 = 0 ∧ calcRateComp n 0 = 0 :=
  ⟨rfl, rfl⟩

/-! ## C5 — alert classification keywords -/

/-- C5 counterexample: a ticket whose title alone contains "firing" is NOT
classified as an alert by the code, although the claim (and the spec's
symmetric keyword rule, `specIsAlert`) says it is.  The same holds for
"prometheus". -/
theorem alert_keyword_title_only_refuted :
    isAlert [] (str "firing") = false ∧ specIsAlert [] (str "firing") = true ∧
    isAlert [] (str "prometheus") = false ∧ specIsAlert [] (str "prometheus") = true := by
  refine ⟨?_, ?_, ?_, ?_⟩ <;> decide

/-- C5 amended: the derived alert flag is true iff the description contains
one of "alert", "firing", "prometheus" or the title contains "alert"
(case-insensitively); "firing"/"prometheus" in the title alone do not make
the ticket an alert. -/
theorem alert_keyword_characterization (d t : Str) :
    isAlert d t = true ↔
      (containsSub (strLower d) (str "alert") = true ∨
       containsSub (strLower t) (str "alert") = true ∨
       containsSub (strLower d) (str "firing") = true ∨
       containsSub (strLower d) (str "prometheus") = true) := by
  simp [isAlert, Bool.or_eq_true, or_assoc]

/-! ## C3 — idempotent keyed upsert -/

/-- After an upsert of `d`, the rows whose key is `d.id` are exactly `[d]`. -/
lemma filter_key_insertOrUpdateIssue (store : List IssueData) (d : IssueData) :
    (insertOrUpdateIssue store d).filter (fun r => (r.id = d.id : Bool)) = [d] := by
  simp only [insertOrUpdateIssue, List.filter_cons, decide_eq_true_eq]
  rw [if_pos trivial, List.filter_filter]
  have h : store.filter (fun a => decide (a.id = d.id) && !decide (a.id = d.id)) = [] := by
    rw [List.filter_eq_nil_iff]
    intro a _
    cases decide (a.id = d.id) <;> simp
  rw [h]

/-- Upserting preserves key-uniqueness of the issues table. -/
lemma nodup_insertOrUpdateIssue (store : List IssueData) (d : IssueData)
    (h : (store.map IssueData.id).Nodup) :
    ((insertOrUpdateIssue store d).map IssueData.id).Nodup := by
  simp only [insertOrUpdateIssue, List.map_cons, List.nodup_cons]
  refine ⟨?_, ?_⟩
  · intro hmem
    obtain ⟨r, hr, hid⟩ := List.mem_map.1 hmem
    have hp := List.of_mem_filter hr
    simp only [Bool.not_eq_true', decide_eq_false_iff_not] at hp
    exact hp hid
  · exact ((List.filter_sublist store).map IssueData.id).nodup h

/-- C3: ingesting two records with the same issue key leaves exactly one row
for that key, carrying the second record's fields (last-write-wins), and
preserves the no-duplicate-keys invariant of the issues table. -/
theorem ingest_same_key_idempotent (store : List IssueData) (d1 d2 : IssueData)
    (hkey : d1.id = d2.id) :
    ((insertOrUpdateIssue (insertOrUpdateIssue store d1) d2).filter
        (fun r => (r.id = d2.id : Bool)) = [d2]) ∧
    ((store.map IssueData.id).Nodup →
      ((insertOrUpdateIssue (insertOrUpdateIssue store d1) d2).map IssueData.id).Nodup) :=
  ⟨filter_key_insertOrUpdateIssue _ d2,
   fun h => nodup_insertOrUpdateIssue _ d2 (nodup_insertOrUpdateIssue store d1 h)⟩

/-- A processed record with the same key as `mutedExampleIssue`'s concrete
shape, used by the C3 witness. -/
def ingestExampleFirst : IssueData :=
  { id := str "O11Y-9", title := str "alert v1", description := [],
    created := str "2025-01-10 00:00:00 UTC", priority := str "Major",
    labels := str "[]", issueType := [], components := str "[]", project := str "O11Y",
    isAlert := true, alertSignature := str "alert v1", clusterId := [],
    tenantId := [], bizType := [], status := [], isSubtask := false,
    stabilityGovernance := [], visibility := [], componentName := [],
    sourceComponent := [], alertGroup := [] }

/-- The same raw ticket re-ingested with updated derived fields. -/
def ingestExampleSecond : IssueData :=
  { ingestExampleFirst with
    title := str "alert v2"
    alertSignature := str "alert v2"
    status := str "Done" }

theorem ingest_same_key_idempotent_witness :
    ((insertOrUpdateIssue (insertOrUpdateIssue [] ingestExampleFirst) ingestExampleSecond).filter
        (fun r => (r.id = ingestExampleSecond.id : Bool)) = [ingestExampleSecond]) ∧
    (((List.map IssueData.id []).Nodup →
      ((insertOrUpdateIssue (insertOrUpdateIssue [] ingestExampleFirst)
          ingestExampleSecond).map IssueData.id).Nodup)) :=
  ingest_same_key_idempotent [] ingestExampleFirst ingestExampleSecond (by decide)

/-! ## C7 — incremental fetch window -/

/-- `List.max?` on naturals returns the maximum element. -/
lemma nat_max?_eq_some_iff (l : List Nat) (m : Nat) :
    l.max? = some m ↔ m ∈ l ∧ ∀ x ∈ l, x ≤ m :=
  List.max?_eq_some_iff (fun a => Nat.le_refl a) (fun a b => max_choice a b)
    (fun a b c => max_le_iff)

/-- C7: the incremental update's fetch window starts at the maximum stored
creation timestamp plus one second when the store is nonempty, at
`now - 30 days` when it is empty, and always ends at `now`. -/
theorem incremental_window_rule (created : List Nat) (now : Nat) :
    (created = [] → incrementalWindow created now = (now - 30 * 86400, now)) ∧
    (∀ m, m ∈ created → (∀ x ∈ created, x ≤ m) →
      incrementalWindow created now = (m + 1, now)) ∧
    (incrementalWindow created now).2 = now := by
  refine ⟨?_, ?_, ?_⟩
  · intro h
    subst h
    rfl
  · intro m hmem hub
    have h : created.max? = some m := (nat_max?_eq_some_iff created m).2 ⟨hmem, hub⟩
    simp [incrementalWindow, h]
  · unfold incrementalWindow
    cases created.max? <;> rfl

theorem incremental_window_rule_witness :
    (incrementalWindow [5, 100, 7] 1000 = (101, 1000)) ∧
    (incrementalWindow [] 5000000 = (5000000 - 30 * 86400, 5000000)) :=
  ⟨(incremental_window_rule [5, 100, 7] 1000).2.1 100 (by decide) (by decide),
   (incremental_window_rule [] 5000000).1 rfl⟩

/-! ## C6 — pagination termination -/

/-- The number of pages fetched never exceeds the remaining fuel. -/
lemma searchPages_count_le {α : Type} (fetch : Str → Page α) :
    ∀ (fuel : Nat) (token : Str) (acc : List α),
      (searchPages fetch fuel token acc).2 ≤ fuel := by
  intro fuel
  induction fuel with
  | zero => intro t acc; simp [searchPages]
  | succ n ih =>
    intro t acc
    simp only [searchPages]
    split
    · exact Nat.le_add_left 1 n
    · split
      · exact Nat.le_add_left 1 n
      · exact Nat.succ_le_succ (ih _ _)

/-- C6: the pagination loop of `SearchAllIssues` (a) fetches at most the
hard ceiling of 500 pages whatever the tracker answers, (b) stops as soon
as a page comes back with an empty continuation token, and (c) when a page
comes back with exactly the token that was just used (stuck pagination), it
stops with that one extra page, returning everything collected so far. -/
theorem pagination_terminates (α : Type) (fetch : Str → Page α) :
    (SearchAllIssues fetch).2 ≤ 500 ∧
    (∀ (fuel : Nat) (token : Str) (acc : List α),
      (fetch token).nextPageToken.isEmpty = true →
      searchPages fetch (fuel + 1) token acc = (acc ++ (fetch token).issues, 1)) ∧
    (∀ (fuel : Nat) (token : Str) (acc : List α),
      (fetch token).nextPageToken = token →
      searchPages fetch (fuel + 1) token acc = (acc ++ (fetch token).issues, 1)) := by
  refine ⟨searchPages_count_le fetch maxPages (str "") [], ?_, ?_⟩
  · intro fuel token acc h
    simp [searchPages, h]
  · intro fuel token acc h
    by_cases he : (fetch token).nextPageToken.isEmpty
    · simp [searchPages, he]
    · simp [searchPages, he, h]

/-- A tracker that always answers one issue and the repeated token `T`:
starting at token `T`, the loop stops after exactly one page. -/
theorem pagination_terminates_witness :
    searchPages (fun _ => ({ issues := [1], nextPageToken := str "T" } : Page Nat))
      3 (str "T") [] = ([1], 1) :=
  (pagination_terminates Nat
    (fun _ => { issues := [1], nextPageToken := str "T" })).2.2 2 (str "T") [] rfl

/-! ## C8 — name resolution cache -/

/-- C8: a non-numeric id (including the empty id, which also reports an
error) resolves to itself as the name with zero external calls and an
unchanged cache; for a numeric id whose lookup succeeds, repeated resolves
make at most one external call in total — the second resolve is served from
the cache with zero calls.  (On a failed lookup the cache is deliberately
not populated, so the next call retries; the at-most-once bound is about
successful lookups, which is what the spec's "cache hit on second call"
describes.) -/
theorem name_resolution_cache (service : Str → Option NameInfo)
    (cache : List (Str × NameInfo)) (id : Str) :
    (isNumeric id = false →
      (Resolve service cache id).info.name = id ∧
      (Resolve service cache id).calls = 0 ∧
      (Resolve service cache id).cache = cache) ∧
    (∀ info, isNumeric id = true → service id = some info →
      (Resolve service (Resolve service cache id).cache id).calls = 0 ∧
      (Resolve service cache id).calls +
        (Resolve service (Resolve service cache id).cache id).calls ≤ 1) := by
  constructor
  · intro h
    by_cases he : id.isEmpty
    · have : id = [] := List.isEmpty_iff.mp he
      subst this
      exact ⟨rfl, rfl, rfl⟩
    · simp only [Bool.not_eq_true] at he
      simp [Resolve, he, h, emptyNameInfo]
  · intro info hnum hsvc
    have he : id.isEmpty = false := by
      cases id with
      | nil => simp [isNumeric] at hnum
      | cons c t => rfl
    cases hcl : cache.lookup id with
    | some i0 => simp [Resolve, he, hnum, hcl]
    | none => simp [Resolve, he, hnum, hcl, hsvc, List.lookup]

/-- Concrete resolved payload for the C8 witness. -/
def exampleNameInfo : NameInfo :=
  { ty := str "cluster", id := str "123", name := str "Acme",
    tenantId := str "7", tenantName := str "AcmeTenant" }

/-- A lookup service that always succeeds with `exampleNameInfo`. -/
def exampleNameService : Str → Option NameInfo := fun _ => some exampleNameInfo

theorem name_resolution_cache_witness :
    ((Resolve exampleNameService [] (str "abc")).info.name = str "abc" ∧
     (Resolve exampleNameService [] (str "abc")).calls = 0 ∧
     (Resolve exampleNameService [] (str "abc")).cache = []) ∧
    ((Resolve exampleNameService
        (Resolve exampleNameService [] (str "123")).cache (str "123")).calls = 0 ∧
     (Resolve exampleNameService [] (str "123")).calls +
       (Resolve exampleNameService
         (Resolve exampleNameService [] (str "123")).cache (str "123")).calls ≤ 1) :=
  ⟨(name_resolution_cache exampleNameService [] (str "abc")).1 (by decide),
   (name_resolution_cache exampleNameService [] (str "123")).2 exampleNameInfo
     (by decide) rfl⟩

/-! ## C2 — muted-issue exclusion -/

/-- C2 counterexample: the global dashboard aggregation (`fetchStats` in
`GetDashboardData`) queries the `issues` table with no `muted_issues`
anti-join, so a database whose only issue is muted still reports a total of
1 for a window containing it — the claim says every analytics read path
excludes muted issues, which would force 0 here. -/
theorem muted_exclusion_refuted :
    mutedExampleTable.any (fun m => (m.issueId = mutedExampleIssue.id : Bool)) = true ∧
    (fetchStats [mutedExampleIssue] (str "all") [] [] [] []
        (str "2025-01-01 00:00:00") (str "2025-02-01 00:00:00")).1 = 1 := by
  constructor <;> decide

/-- A pass through the listing pipeline keeps only elements of the input. -/
lemma mem_of_mem_insertDesc {i j : Issue} {l : List Issue} :
    i ∈ insertDesc j l → i = j ∨ i ∈ l := by
  induction l with
  | nil =>
    intro h
    simp only [insertDesc, List.mem_singleton] at h
    exact Or.inl h
  | cons k t ih =>
    intro h
    simp only [insertDesc] at h
    split at h
    · rcases List.mem_cons.1 h with h1 | h2
      · exact Or.inl h1
      · exact Or.inr h2
    · rcases List.mem_cons.1 h with h1 | h2
      · exact Or.inr (h1 ▸ List.mem_cons_self k t)
      · rcases ih h2 with h3 | h4
        · exact Or.inl h3
        · exact Or.inr (List.mem_cons_of_mem k h4)

/-- Sorting by descending creation stamp does not add elements. -/
lemma mem_of_mem_sortByCreatedDesc {i : Issue} {l : List Issue} :
    i ∈ sortByCreatedDesc l → i ∈ l := by
  induction l with
  | nil => intro h; simp [sortByCreatedDesc] at h
  | cons k t ih =>
    intro h
    simp only [sortByCreatedDesc] at h
    rcases mem_of_mem_insertDesc h with h1 | h2
    · exact h1 ▸ List.mem_cons_self k t
    · exact List.mem_cons_of_mem k (ih h2)

/-- C2 amended: the `muted_issues` anti-join exists on the dashboard issue
listing only — every issue returned by `GetDashboardIssues` has no
`MutedIssue` row — while the aggregation queries (`GetDashboardData`'s
`fetchStats`, see the counterexample, and `GetComponentStats`, whose
embedded `WHERE` clause `compStatsWhere` likewise never consults the muted
table) do not exclude muted issues. -/
theorem muted_exclusion_listing_only (issues : List Issue) (muted : List MutedIssue)
    (catMap : List (Str × Str))
    (env comp tenant sig cluster category metricType priorityF s e : Str)
    (page pageSize : Int) (i : Issue)
    (h : i ∈ GetDashboardIssuesQ issues muted catMap env comp tenant sig cluster
        category metricType priorityF s e page pageSize) :
    muted.any (fun m => (m.issueId = i.id : Bool)) = false := by
  unfold GetDashboardIssuesQ at h
  have h1 := List.mem_of_mem_drop (List.mem_of_mem_take h)
  have h2 := mem_of_mem_sortByCreatedDesc h1
  have h3 := (List.mem_filter.1 h2).2
  simp only [Bool.and_eq_true] at h3
  simpa using h3.1

theorem muted_exclusion_listing_only_witness :
    mutedExampleTable.any (fun m => (m.issueId = listedExampleIssue.id : Bool)) = false :=
  muted_exclusion_listing_only [listedExampleIssue] mutedExampleTable []
    (str "all") [] [] [] [] [] [] [] (str "2025-01-01 00:00:00")
    (str "2025-02-01 00:00:00") 1 50 listedExampleIssue (by decide)

/-! ## C4 — legacy-bucket exclusivity -/

/-- A category map that places a real component in the `Resilience`
category, as the configuration file may. -/
def resilienceCatMap : List (Str × Str) := [(str "comp-r", str "Resilience")]

/-- An alert issue in the legacy/ungoverned bucket whose component list
names `comp-r`. -/
def legacyExampleIssue : Issue :=
  { mutedExampleIssue with
    id := str "O11Y-3"
    components := str "[\"comp-r\"]" }

/-- C4 counterexample: the legacy exclusion of `GetComponentStats` is
applied only to components whose category is neither `Resilience` nor
`Serverless` (`components.go:333`), so with `comp-r` configured in the
`Resilience` category, one legacy-bucket issue is counted both in the
`old-rules` pseudo-component's total and in `comp-r`'s total for the same
window — refuting the claimed exclusivity. -/
theorem legacy_exclusivity_refuted :
    legacyBucket legacyExampleIssue = true ∧
    compStatsTotal [legacyExampleIssue] resilienceCatMap (fun _ => true)
      (str "old-rules") (str "all") [] (str "2025-01-01 00:00:00")
      (str "2025-02-01 00:00:00") = 1 ∧
    compStatsTotal [legacyExampleIssue] resilienceCatMap (fun _ => true)
      (str "comp-r") (str "all") [] (str "2025-01-01 00:00:00")
      (str "2025-02-01 00:00:00") = 1 := by
  refine ⟨?_, ?_, ?_⟩ <;> decide

/-- In the `old-rules` instantiation of the component-stats `WHERE` clause,
a matching row is in the legacy bucket. -/
lemma compStatsWhere_oldrules_legacy (catMap : List (Str × Str))
    (clusterOk : Issue → Bool) (env category s e : Str) (i : Issue)
    (h : compStatsWhere catMap clusterOk (str "old-rules") env category s e i = true) :
    legacyBucket i = true := by
  have hne3 : ¬ ((str "old-rules" : Str) = str "Serverless") := by decide
  simp [compStatsWhere, hne3] at h
  tauto

/-- In the `old-rules` instantiation of the listing filter, a matching row
is in the legacy bucket. -/
lemma dashIssuesWhere_oldrules_legacy (catMap : List (Str × Str))
    (env tenant sig cluster category metricType priorityF s e : Str) (i : Issue)
    (h : dashIssuesWhere catMap env (str "old-rules") tenant sig cluster category
        metricType priorityF s e i = true) :
    legacyBucket i = true := by
  have hne2 : (str "old-rules" : Str).isEmpty = false := by decide
  have hne3 : ¬ ((str "old-rules" : Str) = str "Serverless") := by decide
  simp [dashIssuesWhere, hne2, hne3] at h
  tauto

/-- C4 amended: the legacy bucket is an exclusion predicate only for
components whose configured category is neither `Resilience` nor
`Serverless`: for such a component, an issue counted under `old-rules`
passes neither the component-stats `WHERE` clause nor the dashboard
issue-listing filter of that component for the same window.  (A component
in the `Resilience` or `Serverless` category is not excluded — see the
counterexample.) -/
theorem legacy_exclusivity_governed_only (catMap : List (Str × Str))
    (clusterOk : Issue → Bool) (name env category s e : Str) (i : Issue)
    (hn : name ≠ str "old-rules")
    (hne : name ≠ [])
    (hr : getCategory catMap name ≠ str "Resilience")
    (hs : getCategory catMap name ≠ str "Serverless") :
    (compStatsWhere catMap clusterOk (str "old-rules") env category s e i = true →
      compStatsWhere catMap clusterOk name env category s e i = false) ∧
    (∀ tenant sig cluster metricType priorityF : Str,
      dashIssuesWhere catMap env (str "old-rules") tenant sig cluster category
        metricType priorityF s e i = true →
      dashIssuesWhere catMap env name tenant sig cluster category
        metricType priorityF s e i = false) := by
  have hsv : name ≠ str "Serverless" := by
    intro hcontra
    exact hs (by rw [hcontra]; rfl)
  constructor
  · intro h
    have hleg := compStatsWhere_oldrules_legacy catMap clusterOk env category s e i h
    simp [compStatsWhere, hn, hsv, hr, hs, hleg]
  · intro tenant sig cluster metricType priorityF h
    have hleg := dashIssuesWhere_oldrules_legacy catMap env tenant sig cluster category
      metricType priorityF s e i h
    have hnee : name.isEmpty = false := by
      cases name with
      | nil => exact absurd rfl hne
      | cons c t => rfl
    simp [dashIssuesWhere, hnee, hsv, hn, hr, hs, hleg]

/-- A category map that places component `db` in an ordinary category. -/
def governedCatMap : List (Str × Str) := [(str "db", str "Storage")]

theorem legacy_exclusivity_governed_only_witness :
    compStatsWhere governedCatMap (fun _ => true) (str "db") (str "all") []
      (str "2025-01-01 00:00:00") (str "2025-02-01 00:00:00") legacyExampleIssue = false ∧
    dashIssuesWhere governedCatMap (str "all") (str "db") [] [] [] [] [] []
      (str "2025-01-01 00:00:00") (str "2025-02-01 00:00:00") legacyExampleIssue = false :=
  have h := legacy_exclusivity_governed_only governedCatMap (fun _ => true) (str "db")
    (str "all") [] (str "2025-01-01 00:00:00") (str "2025-02-01 00:00:00")
    legacyExampleIssue (by decide) (by decide) (by decide) (by decide)
  ⟨h.1 (by decide), h.2 [] [] [] [] [] (by decide)⟩

/-! ## C9 — environment filter field -/

/-- An alert issue whose title and signature both carry the `[PROD]` marker. -/
def envExampleA : Issue :=
  { mutedExampleIssue with
    id := str "O11Y-4"
    title := str "[PROD] db down"
    alertSignature := str "[PROD] db down" }

/-- The same alert signature with an unrelated title. -/
def envExampleB : Issue :=
  { envExampleA with
    id := str "O11Y-5"
    title := str "node restarted" }

/-- C9 counterexample: the per-component stats query evaluates the
environment filter against the `title` column (`components.go:358–365`),
not the alert signature: two issues with identical alert signatures are
classified differently by the `env=prod` filter of `GetComponentStats`, and
the window totals differ accordingly — refuting the claim that the outcome
is determined by the alert signature in both query families. -/
theorem env_filter_signature_refuted :
    envExampleA.alertSignature = envExampleB.alertSignature ∧
    compEnvPass (str "prod") envExampleA = true ∧
    compEnvPass (str "prod") envExampleB = false ∧
    compStatsTotal [envExampleA] [] (fun _ => true) (str "old-rules") (str "prod") []
      (str "2025-01-01 00:00:00") (str "2025-02-01 00:00:00") = 1 ∧
    compStatsTotal [envExampleB] [] (fun _ => true) (str "old-rules") (str "prod") []
      (str "2025-01-01 00:00:00") (str "2025-02-01 00:00:00") = 0 := by
  refine ⟨?_, ?_, ?_, ?_, ?_⟩ <;> decide

/-- C9 amended: the global-dashboard queries evaluate the environment
filter on the alert signature (the `[PROD]` prefix test), while the
per-component stats queries evaluate it on `PROD`/`STAGING` marker
substrings of the title: each filter is a function of its own field, and
for `env=prod` the two tests are exactly the prefix test on the signature
and the substring tests on the title. -/
theorem env_filter_fields (env : Str) (i j : Issue) :
    (i.alertSignature = j.alertSignature → dashEnvPass env i = dashEnvPass env j) ∧
    (i.title = j.title → compEnvPass env i = compEnvPass env j) ∧
    dashEnvPass (str "prod") i = strStartsWith i.alertSignature (str "[PROD]") ∧
    compEnvPass (str "prod") i =
      (containsSub i.title (str "[PROD]") || containsSub i.title (str "PROD")) := by
  refine ⟨?_, ?_, ?_, ?_⟩
  · intro h
    simp [dashEnvPass, h]
  · intro h
    simp [compEnvPass, h]
  · simp [dashEnvPass]
  · simp [compEnvPass]

theorem env_filter_fields_witness :
    dashEnvPass (str "prod") envExampleA = dashEnvPass (str "prod") envExampleB ∧
    compEnvPass (str "prod") envExampleA = compEnvPass (str "prod") envExampleA :=
  ⟨(env_filter_fields (str "prod") envExampleA envExampleB).1 rfl,
   (env_filter_fields (str "prod") envExampleA envExampleA).2.1 rfl⟩
